import Mathlib

/-
Verification of the REST API data loader (src/rest_api_loader.py).

The development shallowly embeds the DataLoader class: pure helpers become
Lean functions, the external collaborators (the HTTP transport, the JSON
decoder of the standard library, and the dlt pipeline sink) become explicit
oracle parameters, and Python exceptions become an Except layer. Machine
strings stay Lean strings; dates are a civil calendar model of the
datetime arithmetic actually performed by the script.
-/

/-! ## Calendar model

The script computes `datetime.now() - timedelta(days=1)` and then formats
the result with strftime.  Subtracting one day from a naive datetime keeps
the time of day and moves the civil date back by one, so the model carries
the date and the seconds-of-day separately. -/

structure Date where
  year : Nat
  month : Nat
  day : Nat
deriving DecidableEq, Repr

def isLeap (y : Nat) : Bool :=
  (y % 4 == 0 && y % 100 != 0) || y % 400 == 0

def daysInMonth (y m : Nat) : Nat :=
  if m == 2 then (if isLeap y then 29 else 28)
  else if m == 4 || m == 6 || m == 9 || m == 11 then 30
  else 31

/-- The civil date one day earlier, as produced by `timedelta(days=1)`
subtraction on the date component. -/
def prevDay (d : Date) : Date :=
  if d.day > 1 then ⟨d.year, d.month, d.day - 1⟩
  else if d.month > 1 then ⟨d.year, d.month - 1, daysInMonth d.year (d.month - 1)⟩
  else ⟨d.year - 1, 12, 31⟩

structure PyDateTime where
  date : Date
  secondsOfDay : Nat
deriving DecidableEq, Repr

/-- Model of `datetime - timedelta(days=1)` on a naive datetime: the time of
day is preserved, the date moves back one civil day. -/
def sub_one_day (t : PyDateTime) : PyDateTime :=
  ⟨prevDay t.date, t.secondsOfDay⟩

def pad2 (n : Nat) : String :=
  if n < 10 then "0" ++ toString n else toString n

def pad4 (n : Nat) : String :=
  if n < 10 then "000" ++ toString n
  else if n < 100 then "00" ++ toString n
  else if n < 1000 then "0" ++ toString n
  else toString n

/-- strftime with format string of year-month-day, zero padded. -/
def fmtYmd (d : Date) : String :=
  pad4 d.year ++ "-" ++ pad2 d.month ++ "-" ++ pad2 d.day

/-! ## Base64 and UTF-8

`base64.b64encode(self.token.encode()).decode()` first encodes the token
string as UTF-8 bytes and then base64-encodes those bytes.  Bytes are
modelled as Nat values below 256. -/

def utf8EncodeChar (c : Char) : List Nat :=
  let n := c.toNat
  if n < 128 then [n]
  else if n < 2048 then
    [192 + n / 64, 128 + n % 64]
  else if n < 65536 then
    [224 + n / 4096, 128 + (n / 64) % 64, 128 + n % 64]
  else
    [240 + n / 262144, 128 + (n / 4096) % 64, 128 + (n / 64) % 64, 128 + n % 64]

def utf8Encode (s : String) : List Nat :=
  (s.data.map utf8EncodeChar).flatten

def b64Alphabet : List Char :=
  "ABCDEFGHIJKLMNOPQRSTUVWXYZabcdefghijklmnopqrstuvwxyz0123456789+/".data

def b64Char (n : Nat) : Char :=
  b64Alphabet.getD n 'A'

/-- RFC 4648 base64 of a byte list, as computed by `base64.b64encode`. -/
def b64encode : List Nat → String
  | [] => ""
  | [a] =>
    String.mk [b64Char (a / 4), b64Char (a % 4 * 16)] ++ "=="
  | [a, b] =>
    String.mk [b64Char (a / 4), b64Char (a % 4 * 16 + b / 16), b64Char (b % 16 * 4)] ++ "="
  | a :: b :: c :: rest =>
    String.mk [b64Char (a / 4), b64Char (a % 4 * 16 + b / 16),
               b64Char (b % 16 * 4 + c / 64), b64Char (c % 64)] ++ b64encode rest

/-! ## Configuration data model

A resource entry of configs.json carries a required name and a params
object; `resource["params"]` raises KeyError when the params key is absent,
so params is an Option here.  Inside params, the keys named where and
always_full are read with `.get` and a default. -/

structure ResourceParams where
  whereClause : Option String
  always_full : Option Bool
deriving DecidableEq, Repr

structure ResourceCfg where
  name : String
  params : Option ResourceParams
deriving DecidableEq, Repr

structure Config where
  resources : List ResourceCfg
deriving DecidableEq, Repr

structure Loader where
  base_url : String
  token : String
  dataset : String
  config : Config
deriving DecidableEq, Repr

/-- Python exceptions raised or caught by the script.  valueError models
`ValueError(f"API request failed with status: s")`; jsonDecodeError models
the exception of `json.loads` on a bad line, carrying the line and the
parser message. -/
inductive PyErr where
  | keyError (key : String)
  | valueError (status : Nat)
  | jsonDecodeError (line : String) (cause : String)
  | sinkError (msg : String)
deriving DecidableEq, Repr

/-! ## Request configuration -/

structure EndpointParams where
  whereClause : String
  from_date : String
  to_date : String
deriving DecidableEq, Repr

structure Endpoint where
  params : EndpointParams
deriving DecidableEq, Repr

structure ResourceApiCfg where
  name : String
  endpoint : Endpoint
  write_disposition : String
deriving DecidableEq, Repr

structure ClientCfg where
  base_url : String
  headers : List (String × String)
deriving DecidableEq, Repr

structure ApiConfig where
  client : ClientCfg
  resource : ResourceApiCfg
deriving DecidableEq, Repr

/-- The load-type override of lines 65-68: always_full forces a full load. -/
def effective_load_type (p : ResourceParams) (load_type : String) : String :=
  if p.always_full.getD false then "full" else load_type

/-- Embedding of `DataLoader._get_api_config`.  Reading `resource["params"]`
raises KeyError when the key is missing; that exception is logged and
re-raised by the except clause, hence the error result. -/
def _get_api_config (loader : Loader) (resource : ResourceCfg)
    (date_from date_to load_type : String) : Except PyErr ApiConfig :=
  match resource.params with
  | none => .error (.keyError "params")
  | some p =>
    let load_type := effective_load_type p load_type
    let write_disposition := "replace"
    let where_clause := p.whereClause.getD "1=1"
    .ok
      { client :=
          { base_url := loader.base_url
            headers :=
              [("Authorization", "Basic " ++ b64encode (utf8Encode loader.token)),
               ("Content-Type", "application/json")] }
        resource :=
          { name := resource.name
            endpoint :=
              { params :=
                  { whereClause := where_clause
                    from_date := if load_type == "full" then "1970-01-01" else date_from
                    to_date := date_to } }
            write_disposition := write_disposition } }

/-! ## Streaming fetch

`fetch_api_data` is a generator: it checks the HTTP status, then walks the
response line by line, skipping empty lines and yielding `json.loads` of
each non-empty line; the first exception aborts the generator.  The model
returns the list of records yielded before the generator finished or
raised, paired with the exception, if any.  The HTTP transport and the JSON
decoder are external collaborators, passed in as oracles; a record is an
opaque value of a type parameter. -/

structure HttpRequest where
  url : String
  headers : List (String × String)
  params : EndpointParams
deriving DecidableEq, Repr

structure HttpResponse where
  status_code : Nat
  lines : List String
deriving DecidableEq, Repr

/-- The line loop of the generator body: `if line: yield json.loads(line)`. -/
def decode_lines {α : Type} (decode : String → Except String α) :
    List String → List α × Option PyErr
  | [] => ([], none)
  | l :: ls =>
    if l = "" then decode_lines decode ls
    else
      match decode l with
      | .ok r =>
        let rest := decode_lines decode ls
        (r :: rest.1, rest.2)
      | .error cause => ([], some (.jsonDecodeError l cause))

/-- Embedding of the generator returned by `_create_fetch_api_data`, applied
to the response the transport oracle produced for the request. -/
def fetch_api_data {α : Type} (decode : String → Except String α)
    (response : HttpResponse) : List α × Option PyErr :=
  if response.status_code ≠ 200 then ([], some (.valueError response.status_code))
  else decode_lines decode response.lines

/-! ## Pipeline execution

`pipeline.run(data=fetch_api_data, table_name=resource_name)` is a call
into the external dlt engine.  Per the spec it is the primitive that runs a
generator into a table; the call site passes only the generator and the
table name, so the call descriptor records the write disposition actually
handed over as an Option, none meaning the argument was not supplied.  The
engine consumes the generator (surfacing its exception, if any) and then
commits through the sink oracle. -/

structure PipelineRunCall where
  table_name : String
  write_disposition : Option String
deriving DecidableEq, Repr

/-- Model of the external dlt `pipeline.run` primitive: drain the generator;
a generator exception propagates, otherwise the sink oracle commits the
records under the table name. -/
def pipeline_run {α : Type} (sink : String → List α → Except PyErr Unit)
    (call : PipelineRunCall) (generated : List α × Option PyErr) :
    Except PyErr (List α) :=
  match generated.2 with
  | some e => .error e
  | none =>
    match sink call.table_name generated.1 with
    | .error e => .error e
    | .ok _ => .ok generated.1

/-- What one call of `load_data_for_resource` did: the HTTP request it
issued, the pipeline.run call it made (none when it returned early), and
the logged outcome. -/
inductive Outcome (α : Type) where
  | noConfig
  | succeeded (records : List α)
  | failed (e : PyErr)
deriving DecidableEq, Repr

structure LoadAttempt (α : Type) where
  request : Option HttpRequest
  runCall : Option PipelineRunCall
  outcome : Outcome α
deriving DecidableEq, Repr

/-- Embedding of `DataLoader.load_data_for_resource`.  The resource lookup
uses the first config entry of matching name; a missing entry only logs and
returns.  `_get_api_config` runs before the try block, so its KeyError
propagates (the Except layer); exceptions of the fetch generator or the
pipeline run are caught and logged, and the method returns normally. -/
def load_data_for_resource {α : Type} (loader : Loader)
    (decode : String → Except String α) (api : HttpRequest → HttpResponse)
    (sink : String → List α → Except PyErr Unit)
    (resource_name date_from date_to load_type : String) :
    Except PyErr (LoadAttempt α) :=
  match loader.config.resources.find? (fun item => item.name == resource_name) with
  | none => .ok ⟨none, none, .noConfig⟩
  | some resource_config =>
    match _get_api_config loader resource_config date_from date_to load_type with
    | .error e => .error e
    | .ok api_config =>
      let headers := api_config.client.headers
      let params := api_config.resource.endpoint.params
      let req : HttpRequest := ⟨loader.base_url, headers, params⟩
      let generated := fetch_api_data decode (api req)
      let call : PipelineRunCall := ⟨resource_name, none⟩
      match pipeline_run sink call generated with
      | .ok records => .ok ⟨some req, some call, .succeeded records⟩
      | .error e => .ok ⟨some req, some call, .failed e⟩

/-- The per-resource loop shared by the two run methods; an uncaught
exception aborts the remainder of the loop. -/
def run_resources {α : Type} (loader : Loader)
    (decode : String → Except String α) (api : HttpRequest → HttpResponse)
    (sink : String → List α → Except PyErr Unit)
    (date_from date_to load_type : String) :
    List ResourceCfg → Except PyErr (List (LoadAttempt α))
  | [] => .ok []
  | r :: rest =>
    match load_data_for_resource loader decode api sink r.name date_from date_to load_type with
    | .error e => .error e
    | .ok a =>
      match run_resources loader decode api sink date_from date_to load_type rest with
      | .error e => .error e
      | .ok as => .ok (a :: as)

/-- Embedding of `DataLoader.run_full_load`: date_to is yesterday formatted
with the literal suffix of 23:59:59Z, date_from is the epoch instant. -/
def run_full_load {α : Type} (loader : Loader)
    (decode : String → Except String α) (api : HttpRequest → HttpResponse)
    (sink : String → List α → Except PyErr Unit) (now : PyDateTime) :
    Except PyErr (List (LoadAttempt α)) :=
  let yesterday := sub_one_day now
  let date_to := fmtYmd yesterday.date ++ "T23:59:59Z"
  run_resources loader decode api sink "1970-01-01T00:00:00Z" date_to "full"
    loader.config.resources

/-- Embedding of `DataLoader.run_incremental_load`: date_from and date_to
are both yesterday formatted as a plain year-month-day date. -/
def run_incremental_load {α : Type} (loader : Loader)
    (decode : String → Except String α) (api : HttpRequest → HttpResponse)
    (sink : String → List α → Except PyErr Unit) (now : PyDateTime) :
    Except PyErr (List (LoadAttempt α)) :=
  let yesterday := sub_one_day now
  let date_from := fmtYmd yesterday.date
  let date_to := fmtYmd yesterday.date
  run_resources loader decode api sink date_from date_to "incremental"
    loader.config.resources

/-- Window of an attempt: the from_date and to_date query parameters of the
HTTP request it issued, when it issued one. -/
def attemptWindow {α : Type} (a : LoadAttempt α) : Option (String × String) :=
  a.request.map (fun q => (q.params.from_date, q.params.to_date))

/-- Records of the non-empty lines of a list that a decoder accepts; on a
prefix of fully valid lines this is exactly what the generator yields. -/
def okRecords {α : Type} (decode : String → Except String α) (lines : List String) : List α :=
  lines.filterMap (fun l =>
    if l = "" then none
    else match decode l with
      | .ok r => some r
      | .error _ => none)

/-! ## Fixtures for concrete evaluations -/

def decId : String → Except String String := fun l => .ok l

def sinkOk : String → List String → Except PyErr Unit := fun _ _ => .ok ()

def apiEmpty : HttpRequest → HttpResponse := fun _ => ⟨200, []⟩

def sampleLoader : Loader :=
  ⟨"https://example/api/2.0/my_endpoint/", "user:pass", "my_dataset",
   ⟨[⟨"orders", some ⟨none, none⟩⟩]⟩⟩

def now0 : PyDateTime := ⟨⟨2024, 3, 15⟩, 28800⟩

/-! ## Claim theorems -/

/-- Claim C4: a resource with the always_full flag set is planned as a full
load whatever load type the run requested. -/
theorem always_full_forces_full (p : ResourceParams) (load_type : String)
    (h : p.always_full = some true) : effective_load_type p load_type = "full" := by
  simp [effective_load_type, h]

theorem always_full_forces_full_witness :
    (⟨none, some true⟩ : ResourceParams).always_full = some true ∧
      effective_load_type ⟨none, some true⟩ "incremental" = "full" :=
  ⟨rfl, always_full_forces_full ⟨none, some true⟩ "incremental" rfl⟩

/-- Claim C8: for every credential the request headers are exactly the
Authorization value Basic followed by the base64 of the raw credential
bytes, plus a JSON content type; the credential user:pass encodes to
dXNlcjpwYXNz. -/
theorem auth_header_basic_base64 :
    (∀ (loader : Loader) (r : ResourceCfg) (p : ResourceParams) (df dt lt : String),
      r.params = some p →
      (_get_api_config loader r df dt lt).map (fun c => c.client.headers) =
        .ok [("Authorization", "Basic " ++ b64encode (utf8Encode loader.token)),
             ("Content-Type", "application/json")]) ∧
    "Basic " ++ b64encode (utf8Encode "user:pass") = "Basic dXNlcjpwYXNz" := by
  constructor
  · intro loader r p df dt lt h
    simp [_get_api_config, h, Except.map]
  · decide

theorem auth_header_basic_base64_witness :
    (⟨"orders", some ⟨none, none⟩⟩ : ResourceCfg).params = some ⟨none, none⟩ ∧
      (_get_api_config sampleLoader ⟨"orders", some ⟨none, none⟩⟩ "2024-01-01" "2024-01-02"
          "full").map (fun c => c.client.headers) =
        .ok [("Authorization", "Basic " ++ b64encode (utf8Encode sampleLoader.token)),
             ("Content-Type", "application/json")] :=
  ⟨rfl, auth_header_basic_base64.1 sampleLoader ⟨"orders", some ⟨none, none⟩⟩ ⟨none, none⟩
    "2024-01-01" "2024-01-02" "full" rfl⟩

/-- Claim C9, counterexample: a resource entry with a name but no params
object at all does not get defaults; reading it raises KeyError. -/
theorem missing_params_object_raises_keyerror :
    _get_api_config sampleLoader ⟨"orders", none⟩ "2024-01-01" "2024-01-02" "incremental" =
      .error (.keyError "params") := rfl

/-- Claim C9, amended: the defaults of 1=1 and a non-overriding load type
apply when the params object is present but omits the where and always_full
keys; when the params object is missing entirely, KeyError is raised. -/
theorem params_defaults_when_keys_missing :
    (∀ (loader : Loader) (name df dt lt : String),
      (_get_api_config loader ⟨name, some ⟨none, none⟩⟩ df dt lt).map
          (fun c => (c.resource.endpoint.params.whereClause,
                     c.resource.endpoint.params.from_date,
                     c.resource.endpoint.params.to_date)) =
        .ok ("1=1", if lt == "full" then "1970-01-01" else df, dt)) ∧
    (∀ (loader : Loader) (name df dt lt : String),
      _get_api_config loader ⟨name, none⟩ df dt lt = .error (.keyError "params")) := by
  constructor
  · intro loader name df dt lt
    rfl
  · intro loader name df dt lt
    rfl

/-- Claim C1: the api config carries write disposition replace, but the
pipeline.run call is made with only the generator and the table name, so no
write disposition is handed to the load-execution primitive. -/
theorem write_disposition_not_handed_to_pipeline :
    (_get_api_config sampleLoader ⟨"orders", some ⟨none, none⟩⟩ "1970-01-01T00:00:00Z"
        "2024-03-14T23:59:59Z" "full").map (fun c => c.resource.write_disposition) =
      .ok "replace" ∧
    (load_data_for_resource sampleLoader decId (fun _ => ⟨200, ["rec1"]⟩) sinkOk "orders"
        "1970-01-01T00:00:00Z" "2024-03-14T23:59:59Z" "full").map (fun a => a.runCall) =
      .ok (some ⟨"orders", none⟩) := by
  exact ⟨rfl, rfl⟩

/-- Claim C6: a response with a status outside the 2xx range makes the
generator raise carrying that status before yielding anything: no records
are produced. -/
theorem non_2xx_fails_before_any_yield {α : Type} (decode : String → Except String α)
    (response : HttpResponse)
    (h : ¬(200 ≤ response.status_code ∧ response.status_code < 300)) :
    fetch_api_data decode response = ([], some (.valueError response.status_code)) := by
  have hne : response.status_code ≠ 200 := by
    intro he
    exact h ⟨le_of_eq he.symm, by omega⟩
  simp [fetch_api_data, hne]

theorem non_2xx_fails_before_any_yield_witness :
    ¬(200 ≤ 404 ∧ 404 < 300) ∧
      fetch_api_data decId ⟨404, ["rec1"]⟩ = ([], some (.valueError 404)) :=
  ⟨by decide, non_2xx_fails_before_any_yield decId ⟨404, ["rec1"]⟩ (by decide)⟩

/-- Claim C10: asking for a resource name absent from the catalog issues no
HTTP request, makes no pipeline.run call, raises nothing, and only records
the missing configuration. -/
theorem unknown_resource_is_noop {α : Type} (loader : Loader)
    (decode : String → Except String α) (api : HttpRequest → HttpResponse)
    (sink : String → List α → Except PyErr Unit) (name df dt lt : String)
    (h : ∀ r ∈ loader.config.resources, r.name ≠ name) :
    load_data_for_resource loader decode api sink name df dt lt =
      .ok ⟨none, none, .noConfig⟩ := by
  have hf : loader.config.resources.find? (fun item => item.name == name) = none := by
    rw [List.find?_eq_none]
    intro r hr
    simp [h r hr]
  simp [load_data_for_resource, hf]

theorem unknown_resource_is_noop_witness :
    (∀ r ∈ sampleLoader.config.resources, r.name ≠ "zzz") ∧
      load_data_for_resource sampleLoader decId apiEmpty sinkOk "zzz" "2024-01-01"
          "2024-01-02" "full" = .ok ⟨none, none, .noConfig⟩ :=
  ⟨by decide, unknown_resource_is_noop sampleLoader decId apiEmpty sinkOk "zzz" "2024-01-01"
    "2024-01-02" "full" (by decide)⟩

/-- Claim C7: one undecodable non-empty line among valid lines makes the
generator yield exactly the records of the valid lines before it and then
raise carrying that line; the bad line yields nothing and no later line is
processed. -/
theorem decode_error_aborts_after_prefix {α : Type} (decode : String → Except String α)
    (pre : List String) (bad : String) (post : List String) (cause : String)
    (hpre : ∀ l ∈ pre, l ≠ "" → ∃ r, decode l = .ok r)
    (hbad : bad ≠ "") (hdec : decode bad = .error cause) :
    fetch_api_data decode ⟨200, pre ++ bad :: post⟩ =
      (okRecords decode pre, some (.jsonDecodeError bad cause)) := by
  have key : ∀ (q : List String), (∀ l ∈ q, l ≠ "" → ∃ r, decode l = .ok r) →
      decode_lines decode (q ++ bad :: post) =
        (okRecords decode q, some (.jsonDecodeError bad cause)) := by
    intro q
    induction q with
    | nil =>
      intro _
      simp [decode_lines, hbad, hdec, okRecords]
    | cons l ls ih =>
      intro hq
      by_cases hl : l = ""
      · subst hl
        simpa [decode_lines, okRecords] using
          ih (fun x hx hne => hq x (List.mem_cons_of_mem _ hx) hne)
      · obtain ⟨r, hr⟩ := hq l (List.mem_cons_self l ls) hl
        have hrest := ih (fun x hx hne => hq x (List.mem_cons_of_mem _ hx) hne)
        simp [decode_lines, hl, hr, hrest, okRecords, List.filterMap_cons]
  simpa [fetch_api_data] using key pre hpre

theorem decode_error_aborts_after_prefix_witness :
    (∀ l ∈ ["rec1", "", "rec2"], l ≠ "" →
        ∃ r, (fun l => if l = "notjson" then Except.error "Expecting value" else Except.ok l) l =
          Except.ok r) ∧
      ("notjson" : String) ≠ "" ∧
      fetch_api_data (fun l => if l = "notjson" then Except.error "Expecting value" else .ok l)
          ⟨200, ["rec1", "", "rec2", "notjson", "rec3"]⟩ =
        (["rec1", "rec2"], some (.jsonDecodeError "notjson" "Expecting value")) :=
  ⟨by
      intro l hl hne
      fin_cases hl
      · exact ⟨"rec1", rfl⟩
      · exact absurd rfl hne
      · exact ⟨"rec2", rfl⟩,
    by decide,
    decode_error_aborts_after_prefix _ ["rec1", "", "rec2"] "notjson" ["rec3"]
      "Expecting value"
      (by
        intro l hl hne
        fin_cases hl
        · exact ⟨"rec1", rfl⟩
        · exact absurd rfl hne
        · exact ⟨"rec2", rfl⟩)
      (by decide) rfl⟩

/-- Helper: when the lookup finds a config entry with a params object, the
issued request carries the epoch sentinel as from_date exactly when the
effective load type is full, and carries date_to unchanged. -/
theorem load_window_eq {α : Type} (loader : Loader) (decode : String → Except String α)
    (api : HttpRequest → HttpResponse) (sink : String → List α → Except PyErr Unit)
    (name df dt lt : String) (rc : ResourceCfg) (p : ResourceParams)
    (hf : loader.config.resources.find? (fun item => item.name == name) = some rc)
    (hp : rc.params = some p) :
    (load_data_for_resource loader decode api sink name df dt lt).map attemptWindow =
      .ok (some ((if effective_load_type p lt == "full" then "1970-01-01" else df), dt)) := by
  simp only [load_data_for_resource, hf, _get_api_config, hp]
  split
  · simp [attemptWindow, Except.map]
  · simp [attemptWindow, Except.map]

def loaderC2 : Loader := ⟨"u", "t", "d", ⟨[⟨"events", some ⟨none, none⟩⟩]⟩⟩

def loaderC3 : Loader := ⟨"u", "t", "d", ⟨[⟨"dims", some ⟨none, some true⟩⟩]⟩⟩

/-- Claim C2, counterexample: at reference instant 2024-03-15T08:00:00 the
incremental request window is the pair of plain dates 2024-03-14 and
2024-03-14, which are neither the claimed 2024-03-14T00:00:00 nor the
claimed 2024-03-14T23:59:59. -/
theorem incremental_window_no_time_component :
    (run_incremental_load loaderC2 decId apiEmpty sinkOk ⟨⟨2024, 3, 15⟩, 28800⟩).map
        (fun as => as.map attemptWindow) =
      .ok [some ("2024-03-14", "2024-03-14")] ∧
    ("2024-03-14" : String) ≠ "2024-03-14T00:00:00" ∧
    ("2024-03-14" : String) ≠ "2024-03-14T23:59:59" :=
  ⟨rfl, by decide, by decide⟩

/-- Claim C2, amended: an incremental load without the always-full override
requests exactly the calendar day before the reference instant, but both
bounds are the plain date of that day with no time of day attached. -/
theorem incremental_window_is_plain_prev_day {α : Type} (loader : Loader)
    (r : ResourceCfg) (p : ResourceParams) (decode : String → Except String α)
    (api : HttpRequest → HttpResponse) (sink : String → List α → Except PyErr Unit)
    (now : PyDateTime) (hres : loader.config.resources = [r]) (hp : r.params = some p)
    (haf : p.always_full.getD false = false) :
    (run_incremental_load loader decode api sink now).map (fun as => as.map attemptWindow) =
      .ok [some (fmtYmd (prevDay now.date), fmtYmd (prevDay now.date))] := by
  have hf : loader.config.resources.find? (fun item => item.name == r.name) = some r := by
    rw [hres]
    simp
  have hw := load_window_eq loader decode api sink r.name (fmtYmd (prevDay now.date))
    (fmtYmd (prevDay now.date)) "incremental" r p hf hp
  have helt : effective_load_type p "incremental" = "incremental" := by
    simp [effective_load_type, haf]
  rw [helt] at hw
  simp only [show (("incremental" == "full") = false) by decide, if_neg] at hw
  simp only [run_incremental_load, sub_one_day, hres, run_resources]
  cases hl : load_data_for_resource loader decode api sink r.name (fmtYmd (prevDay now.date))
      (fmtYmd (prevDay now.date)) "incremental" with
  | error e =>
    rw [hl] at hw
    simp [Except.map] at hw
  | ok a =>
    rw [hl] at hw
    simp [Except.map] at hw
    simp [Except.map, hw]

theorem incremental_window_is_plain_prev_day_witness :
    loaderC2.config.resources = [⟨"events", some ⟨none, none⟩⟩] ∧
      (⟨"events", some ⟨none, none⟩⟩ : ResourceCfg).params = some ⟨none, none⟩ ∧
      (⟨none, none⟩ : ResourceParams).always_full.getD false = false ∧
      (run_incremental_load loaderC2 decId apiEmpty sinkOk ⟨⟨2024, 3, 15⟩, 28800⟩).map
          (fun as => as.map attemptWindow) =
        .ok [some (fmtYmd (prevDay ⟨2024, 3, 15⟩), fmtYmd (prevDay ⟨2024, 3, 15⟩))] :=
  ⟨rfl, rfl, rfl,
    incremental_window_is_plain_prev_day loaderC2 ⟨"events", some ⟨none, none⟩⟩ ⟨none, none⟩
      decId apiEmpty sinkOk ⟨⟨2024, 3, 15⟩, 28800⟩ rfl rfl rfl⟩

/-- Claim C3, counterexample: a resource with the always-full override,
loaded during an incremental run at reference instant 2024-03-15T08:00:00,
gets from_date 1970-01-01 but to_date 2024-03-14 — a plain date, not the
end of the preceding day at 23:59:59 the claim requires for every
effective-full load. -/
theorem always_full_incremental_to_date_no_time :
    (run_incremental_load loaderC3 decId apiEmpty sinkOk ⟨⟨2024, 3, 15⟩, 28800⟩).map
        (fun as => as.map attemptWindow) =
      .ok [some ("1970-01-01", "2024-03-14")] ∧
    ("2024-03-14" : String) ≠ "2024-03-14T23:59:59" :=
  ⟨rfl, by decide⟩

/-- Claim C3, amended: every effective-full load requests from_date
1970-01-01; the to_date is the preceding day at 23:59:59 (with the literal
Z suffix) when the run itself is a full run, but is the plain preceding-day
date when full mode arises from the always-full override during an
incremental run. -/
theorem full_load_window_epoch_from :
    (∀ {α : Type} (loader : Loader) (r : ResourceCfg) (p : ResourceParams)
      (decode : String → Except String α) (api : HttpRequest → HttpResponse)
      (sink : String → List α → Except PyErr Unit) (now : PyDateTime),
      loader.config.resources = [r] → r.params = some p →
      (run_full_load loader decode api sink now).map (fun as => as.map attemptWindow) =
        .ok [some ("1970-01-01", fmtYmd (prevDay now.date) ++ "T23:59:59Z")]) ∧
    (∀ {α : Type} (loader : Loader) (r : ResourceCfg) (p : ResourceParams)
      (decode : String → Except String α) (api : HttpRequest → HttpResponse)
      (sink : String → List α → Except PyErr Unit) (now : PyDateTime),
      loader.config.resources = [r] → r.params = some p → p.always_full = some true →
      (run_incremental_load loader decode api sink now).map (fun as => as.map attemptWindow) =
        .ok [some ("1970-01-01", fmtYmd (prevDay now.date))]) := by
  constructor
  · intro α loader r p decode api sink now hres hp
    have hf : loader.config.resources.find? (fun item => item.name == r.name) = some r := by
      rw [hres]
      simp
    have hw := load_window_eq loader decode api sink r.name "1970-01-01T00:00:00Z"
      (fmtYmd (prevDay now.date) ++ "T23:59:59Z") "full" r p hf hp
    have helt : effective_load_type p "full" = "full" := by
      unfold effective_load_type
      split <;> rfl
    rw [helt] at hw
    simp only [show (("full" == "full") = true) by decide, if_pos] at hw
    simp only [run_full_load, sub_one_day, hres, run_resources]
    cases hl : load_data_for_resource loader decode api sink r.name "1970-01-01T00:00:00Z"
        (fmtYmd (prevDay now.date) ++ "T23:59:59Z") "full" with
    | error e =>
      rw [hl] at hw
      simp [Except.map] at hw
    | ok a =>
      rw [hl] at hw
      simp [Except.map] at hw
      simp [Except.map, hw]
  · intro α loader r p decode api sink now hres hp haf
    have hf : loader.config.resources.find? (fun item => item.name == r.name) = some r := by
      rw [hres]
      simp
    have hw := load_window_eq loader decode api sink r.name (fmtYmd (prevDay now.date))
      (fmtYmd (prevDay now.date)) "incremental" r p hf hp
    have helt : effective_load_type p "incremental" = "full" := by
      simp [effective_load_type, haf]
    rw [helt] at hw
    simp only [show (("full" == "full") = true) by decide, if_pos] at hw
    simp only [run_incremental_load, sub_one_day, hres, run_resources]
    cases hl : load_data_for_resource loader decode api sink r.name (fmtYmd (prevDay now.date))
        (fmtYmd (prevDay now.date)) "incremental" with
    | error e =>
      rw [hl] at hw
      simp [Except.map] at hw
    | ok a =>
      rw [hl] at hw
      simp [Except.map] at hw
      simp [Except.map, hw]

theorem full_load_window_epoch_from_witness :
    loaderC3.config.resources = [⟨"dims", some ⟨none, some true⟩⟩] ∧
      (⟨"dims", some ⟨none, some true⟩⟩ : ResourceCfg).params = some ⟨none, some true⟩ ∧
      (run_full_load loaderC3 decId apiEmpty sinkOk ⟨⟨2024, 3, 15⟩, 28800⟩).map
          (fun as => as.map attemptWindow) =
        .ok [some ("1970-01-01", fmtYmd (prevDay ⟨2024, 3, 15⟩) ++ "T23:59:59Z")] :=
  ⟨rfl, rfl,
    full_load_window_epoch_from.1 loaderC3 ⟨"dims", some ⟨none, some true⟩⟩
      ⟨none, some true⟩ decId apiEmpty sinkOk ⟨⟨2024, 3, 15⟩, 28800⟩ rfl rfl⟩

/-- Helper: when every catalog entry has a params object, a single resource
load never raises out of the method: fetch, decode and sink failures are
caught inside it. -/
theorem load_ok_of_params {α : Type} (loader : Loader)
    (decode : String → Except String α) (api : HttpRequest → HttpResponse)
    (sink : String → List α → Except PyErr Unit) (name df dt lt : String)
    (h : ∀ r ∈ loader.config.resources, r.params.isSome = true) :
    ∃ a, load_data_for_resource loader decode api sink name df dt lt = .ok a := by
  cases hf : loader.config.resources.find? (fun item => item.name == name) with
  | none => exact ⟨⟨none, none, .noConfig⟩, by simp [load_data_for_resource, hf]⟩
  | some rc =>
    obtain ⟨p, hp⟩ := Option.isSome_iff_exists.mp (h rc (List.mem_of_find?_eq_some hf))
    simp only [load_data_for_resource, hf, _get_api_config, hp]
    split
    · exact ⟨_, rfl⟩
    · exact ⟨_, rfl⟩

/-- Helper: the per-resource loop returns one attempt per catalog entry
when no single load raises. -/
theorem run_resources_ok {α : Type} (loader : Loader)
    (decode : String → Except String α) (api : HttpRequest → HttpResponse)
    (sink : String → List α → Except PyErr Unit) (df dt lt : String) :
    ∀ rs : List ResourceCfg,
      (∀ r ∈ rs, ∃ a, load_data_for_resource loader decode api sink r.name df dt lt = .ok a) →
      ∃ as, run_resources loader decode api sink df dt lt rs = .ok as ∧ as.length = rs.length := by
  intro rs
  induction rs with
  | nil => exact fun _ => ⟨[], rfl, rfl⟩
  | cons r rest ih =>
    intro h
    obtain ⟨a, ha⟩ := h r (List.mem_cons_self r rest)
    obtain ⟨as, has, hlen⟩ := ih (fun x hx => h x (List.mem_cons_of_mem r hx))
    refine ⟨a :: as, ?_, by simp [hlen]⟩
    simp [run_resources, ha, has]

def threeLoader : Loader :=
  ⟨"u", "t", "d",
   ⟨[⟨"a", some ⟨some "w1", none⟩⟩, ⟨"b", some ⟨some "w2", none⟩⟩,
     ⟨"c", some ⟨some "w3", none⟩⟩]⟩⟩

def api3 : HttpRequest → HttpResponse :=
  fun req => if req.params.whereClause = "w2" then ⟨500, []⟩ else ⟨200, ["x"]⟩

/-- Claim C5: a fetch, decode or sink failure of one resource is caught and
recorded per resource, the run is never aborted, and every later catalog
entry is still attempted; with three resources whose middle fetch returns
status 500 the outcomes are succeeded, failed, succeeded. -/
theorem per_resource_failure_isolated :
    (∀ {α : Type} (loader : Loader) (decode : String → Except String α)
      (api : HttpRequest → HttpResponse) (sink : String → List α → Except PyErr Unit)
      (now : PyDateTime),
      (∀ r ∈ loader.config.resources, r.params.isSome = true) →
      ∃ attempts, run_full_load loader decode api sink now = .ok attempts ∧
        attempts.length = loader.config.resources.length) ∧
    (run_full_load threeLoader decId api3 sinkOk now0).map (fun as => as.map (fun a => a.outcome)) =
      .ok [.succeeded ["x"], .failed (.valueError 500), .succeeded ["x"]] := by
  constructor
  · intro α loader decode api sink now h
    obtain ⟨as, has, hlen⟩ :=
      run_resources_ok loader decode api sink "1970-01-01T00:00:00Z"
        (fmtYmd (prevDay now.date) ++ "T23:59:59Z") "full" loader.config.resources
        (fun r _ =>
          load_ok_of_params loader decode api sink r.name "1970-01-01T00:00:00Z"
            (fmtYmd (prevDay now.date) ++ "T23:59:59Z") "full" h)
    exact ⟨as, by simpa [run_full_load, sub_one_day] using has, hlen⟩
  · rfl

theorem per_resource_failure_isolated_witness :
    (∀ r ∈ threeLoader.config.resources, r.params.isSome = true) ∧
      ∃ attempts, run_full_load threeLoader decId api3 sinkOk now0 = .ok attempts ∧
        attempts.length = threeLoader.config.resources.length :=
  ⟨by decide,
    per_resource_failure_isolated.1 threeLoader decId api3 sinkOk now0 (by decide)⟩
